import Mathlib

set_option maxRecDepth 100000

/-!
Shallow embedding of the Yandex.Disk public-folder client
(`files/views.py`) and proofs about its listing, caching, link-resolution
and ZIP-building behaviour.

HTTP traffic is modelled by explicit function parameters: the listing API
is a function from the request `offset` to the page response it serves,
link resolution and byte fetches are functions from the request URL to the
response.  The Django cache is modelled as a map from string keys to
entries carrying an absolute expiry instant, with an explicit `now` clock.
The unbounded `while True` pagination loop of the source is modelled with
an explicit fuel parameter; all pagination theorems assume the fuel
exceeds the number of pages actually consumed.
-/

/-- One file/folder entry of the listing (`item` dict in the source).
The code only ever reads `item.get('media_type')`; `path` and `size`
stand for the remaining opaque metadata. -/
structure Item where
  path : String
  media_type : Option String
  size : Nat
deriving DecidableEq

/-- One page response of `GET /resources?public_key=...&offset=...&limit=...`.
`embedded_items` is `response.json().get('_embedded', {}).get('items', [])`
(the source's defaults for a missing `_embedded` or `items` are folded into
the field: a body without them is modelled by `embedded_items = []`). -/
structure ListingResponse where
  status_code : Nat
  embedded_items : List Item
deriving DecidableEq

/-- The query parameters sent for one page request
(`params = {"limit": limit, "offset": offset}`, views.py lines 50-53). -/
structure PageRequest where
  limit : Nat
  offset : Nat
deriving DecidableEq

/-- One stored cache value together with its absolute expiry instant
(Django stores `time.time() + timeout`). -/
structure CacheEntry where
  value : List Item
  expires_at : Nat
deriving DecidableEq

/-- The Django cache, modelled as a partial map from keys to entries. -/
def Cache : Type := String → Option CacheEntry

/-- The empty cache (every key is a miss). -/
def emptyCache : Cache := fun _ => none

/-- Model of `cache.get(key)` at instant `now`: an entry is returned while
`now` is strictly before its expiry (Django's local-memory cache treats
`exp <= time.time()` as expired). -/
def cache_get (c : Cache) (now : Nat) (key : String) : Option (List Item) :=
  match c key with
  | some entry => if now < entry.expires_at then some entry.value else none
  | none => none

/-- Model of `cache.set(key, value, timeout)` at instant `now`. -/
def cache_set (c : Cache) (now : Nat) (key : String) (value : List Item)
    (timeout : Nat) : Cache :=
  fun k => if k = key then some ⟨value, now + timeout⟩ else c k

/-- Python rendering of the optional `media_type` argument inside the
f-string `f"files_{public_key}_{media_type}"`: `None` prints as "None". -/
def pyFormatOpt : Option String → String
  | none => "None"
  | some s => s

/-- The cache key `f"files_{public_key}_{media_type}"` (views.py line 35). -/
def listing_cache_key (public_key : String) (media_type : Option String) : String :=
  "files_" ++ public_key ++ "_" ++ pyFormatOpt media_type

/-- Python truthiness of the `media_type` parameter (a `str` or `None`):
`None` and the empty string are falsy. -/
def media_type_truthy : Option String → Bool
  | none => false
  | some s => s != ""

/-- The per-item filter of views.py lines 67-70: an item is skipped exactly
when `media_type and item.get('media_type') != media_type`. -/
def keepItem (media_type : Option String) (item : Item) : Bool :=
  !(media_type_truthy media_type && (item.media_type != media_type))

/-- The `while True` pagination loop of views.py lines 49-75, with explicit
fuel.  At each step it issues the page request `{limit := 50, offset}`
(recorded in the returned trace); on status 200 with a non-empty item list
it appends the items passing `keepItem` and moves the offset forward by the
limit 50; on status 200 with no items, or on any other status, it breaks. -/
def paginate (api : Nat → ListingResponse) (media_type : Option String) :
    Nat → Nat → List Item → List PageRequest → List Item × List PageRequest
  | 0, _, files, reqs => (files, reqs)
  | fuel + 1, offset, files, reqs =>
    if (api offset).status_code = 200 then
      if (api offset).embedded_items = [] then
        (files, reqs ++ [⟨50, offset⟩])
      else
        paginate api media_type fuel (offset + 50)
          (files ++ (api offset).embedded_items.filter (keepItem media_type))
          (reqs ++ [⟨50, offset⟩])
    else
      (files, reqs ++ [⟨50, offset⟩])

/-- Result of one call to `get_files_from_public_link`: the returned list,
the trace of page requests issued, and the cache after the call. -/
structure GFResult where
  files : List Item
  requests : List PageRequest
  cache : Cache

/-- Model of `get_files_from_public_link(public_key, media_type)`
(views.py lines 16-78): consult the cache first and return the cached list
unchanged on a hit; otherwise run the pagination loop from offset 0 and
store the accumulated list under the key with `timeout=3600`. -/
def get_files_from_public_link (c : Cache) (now : Nat)
    (api : Nat → ListingResponse) (fuel : Nat)
    (public_key : String) (media_type : Option String) : GFResult :=
  match cache_get c now (listing_cache_key public_key media_type) with
  | some cached_files => ⟨cached_files, [], c⟩
  | none =>
    let r := paginate api media_type fuel 0 [] []
    ⟨r.1, r.2,
      cache_set c now (listing_cache_key public_key media_type) r.1 3600⟩

/-- Filtered items of `k` consecutive pages starting at `offset`
(offsets advance by the limit 50). -/
def collectItems (api : Nat → ListingResponse) (media_type : Option String) :
    Nat → Nat → List Item
  | _, 0 => []
  | offset, k + 1 =>
    (api offset).embedded_items.filter (keepItem media_type) ++
      collectItems api media_type (offset + 50) k

/-- Raw (unfiltered) items of `k` consecutive pages starting at `offset`. -/
def allPageItems (api : Nat → ListingResponse) : Nat → Nat → List Item
  | _, 0 => []
  | offset, k + 1 =>
    (api offset).embedded_items ++ allPageItems api (offset + 50) k

/-- The trace of `k` page requests starting at `offset`, each with limit 50
and offsets advancing by 50. -/
def reqTrace : Nat → Nat → List PageRequest
  | _, 0 => []
  | offset, k + 1 => ⟨50, offset⟩ :: reqTrace (offset + 50) k

/-- Base URL of the remote API (views.py line 13). -/
def YANDEX_DISK_API_URL : String :=
  "https://cloud-api.yandex.net/v1/disk/public/resources"

/-- UTF-8 encoding of a Unicode code point as a list of byte values. -/
def utf8Encode (n : Nat) : List Nat :=
  if n < 128 then [n]
  else if n < 2048 then [192 + n / 64, 128 + n % 64]
  else if n < 65536 then [224 + n / 4096, 128 + n / 64 % 64, 128 + n % 64]
  else [240 + n / 262144, 128 + n / 4096 % 64, 128 + n / 64 % 64, 128 + n % 64]

/-- Uppercase hexadecimal digit for a value below 16. -/
def hexDigitChar (n : Nat) : Char :=
  if n < 10 then Char.ofNat (48 + n) else Char.ofNat (55 + n)

/-- Percent-encoding of one byte: a percent sign followed by two uppercase
hex digits. -/
def percentEncodeByte (b : Nat) : List Char :=
  ['%', hexDigitChar (b / 16), hexDigitChar (b % 16)]

/-- The characters `urllib.parse.quote` never encodes: ASCII letters,
digits and `_.-~`. -/
def alwaysSafe (c : Char) : Bool :=
  c.isAlpha || c.isDigit || c == '_' || c == '.' || c == '-' || c == '~'

/-- Model of `urllib.parse.quote_plus` with default arguments: spaces
become `+`, always-safe characters pass through, and every other
character is percent-encoded byte-by-byte in its UTF-8 form. -/
def quote_plus (s : String) : String :=
  String.mk (s.data.map (fun c =>
    if c = ' ' then ['+']
    else if alwaysSafe c then [c]
    else ((utf8Encode c.toNat).map percentEncodeByte).flatten)).flatten

/-- Request URL built by the blocking `get_download_link` (views.py lines
101-106): the first 31 characters of `file_path` are spliced onto
`public_key` after `"//"`, the rest of `file_path` is percent-encoded and
sent as `path`. -/
def get_download_link_url (public_key : String) (file_path : String) : String :=
  let public_key := public_key ++ "//" ++ file_path.take 31
  let file_path := file_path.drop 31
  let encoded_file_path := quote_plus file_path
  YANDEX_DISK_API_URL ++ "/download?public_key=" ++ public_key ++
    "&path=" ++ encoded_file_path

/-- Request URL built by `get_download_link_async` (views.py line 141):
`public_key` and `file_path` are sent unmodified and unencoded. -/
def get_download_link_async_url (public_key : String) (file_path : String) : String :=
  YANDEX_DISK_API_URL ++ "/download?public_key=" ++ public_key ++
    "&path=" ++ file_path

/-- Response of the download-link endpoint: `href` is the field of the
JSON body when present (`response.json().get('href', '')` defaults a
missing field to the empty string). -/
structure LinkResponse where
  status_code : Nat
  href : Option String
deriving DecidableEq

/-- Model of the blocking `get_download_link` (views.py lines 81-116).
`fetch` models the HTTP GET: a transport-level error is `Except.error`
and propagates; otherwise the function returns the `href` of a 200
response (empty string when the field is missing) and the empty string on
any other status. -/
def get_download_link (fetch : String → Except String LinkResponse)
    (public_key : String) (file_path : String) : Except String String :=
  match fetch (get_download_link_url public_key file_path) with
  | Except.error e => Except.error e
  | Except.ok response =>
    if response.status_code = 200 then Except.ok (response.href.getD "")
    else Except.ok ""

/-- Model of `get_download_link_async` (views.py lines 119-151): same
response handling as the blocking variant, but over the unmutated URL. -/
def get_download_link_async (fetch : String → Except String LinkResponse)
    (public_key : String) (file_path : String) : Except String String :=
  match fetch (get_download_link_async_url public_key file_path) with
  | Except.error e => Except.error e
  | Except.ok response =>
    if response.status_code = 200 then Except.ok (response.href.getD "")
    else Except.ok ""

/-- Response of a direct file download (`session.get(download_url)`). -/
structure FetchResponse where
  status_code : Nat
  body : List Nat
deriving DecidableEq

/-- One entry written into a ZIP archive: `zip_file.writestr(name, data)`
or `zip_file.write(path, name)`. -/
structure ZipEntry where
  name : String
  data : List Nat
deriving DecidableEq

/-- An in-memory ZIP buffer: the entries in the order written, and the
current read position of the underlying `BytesIO`. -/
structure ZipBuffer where
  entries : List ZipEntry
  pos : Nat
deriving DecidableEq

/-- The per-file loop of `create_zip_archive_from_yandex` (views.py lines
244-259), also counting the HTTP requests issued: for each path, one
link-resolution request; when the resolved link is non-empty (truthy), one
byte-fetch request, whose body is written under the name `file_path` when
its status is 200 and skipped otherwise. -/
def yandexZipEntries (resolveLink : String → String → String)
    (fetch : String → FetchResponse) (public_key : String) :
    List String → List ZipEntry × Nat
  | [] => ([], 0)
  | file_path :: rest =>
    let download_url := resolveLink public_key file_path
    if download_url = "" then
      let r := yandexZipEntries resolveLink fetch public_key rest
      (r.1, r.2 + 1)
    else
      let response := fetch download_url
      let r := yandexZipEntries resolveLink fetch public_key rest
      if response.status_code = 200 then
        (⟨file_path, response.body⟩ :: r.1, r.2 + 2)
      else
        (r.1, r.2 + 2)

/-- Model of `create_zip_archive_from_yandex(public_key, file_paths)`
(views.py lines 211-263): builds the entries in input order and returns
the buffer rewound to position 0 (`zip_buffer.seek(0)`), paired with the
number of HTTP requests issued.  `resolveLink` stands for
`get_download_link_async` restricted to its returned link (empty string on
failure). -/
def create_zip_archive_from_yandex (resolveLink : String → String → String)
    (fetch : String → FetchResponse) (public_key : String)
    (file_paths : List String) : ZipBuffer × Nat :=
  let r := yandexZipEntries resolveLink fetch public_key file_paths
  (⟨r.1, 0⟩, r.2)

/-- Model of Python `str.lstrip('/')`: drop every leading slash. -/
def lstripSlashes (s : String) : String :=
  String.mk (s.data.dropWhile (fun c => c = '/'))

/-- Whether a string starts with a slash. -/
def startsWithSlash (s : String) : Bool :=
  s.data.head? == some '/'

/-- Whether a string ends with a slash. -/
def endsWithSlash (s : String) : Bool :=
  s.data.getLast? == some '/'

/-- Model of `os.path.join(a, b)` for POSIX paths and two arguments: an
absolute `b` replaces `a`; otherwise `b` is appended, inserting a slash
unless `a` is empty or already ends with one. -/
def os_path_join (a : String) (b : String) : String :=
  if startsWithSlash b then b
  else if a = "" ∨ endsWithSlash a then a ++ b
  else a ++ "/" ++ b

/-- Model of `os.path.basename`: the characters after the last slash. -/
def os_path_basename (p : String) : String :=
  String.mk ((p.data.reverse.takeWhile (fun c => c ≠ '/')).reverse)

/-- The per-file loop of `create_zip_archive` (views.py lines 325-333).
`fs` models local storage: `fs p = some contents` iff `os.path.exists(p)`,
in which case `contents` is the file's bytes.  Each path is joined to the
media root after stripping leading slashes, and written under its base
name when it exists. -/
def localZipEntries (media_root : String) (fs : String → Option (List Nat)) :
    List String → List ZipEntry
  | [] => []
  | file_path :: rest =>
    match fs (os_path_join media_root (lstripSlashes file_path)) with
    | some contents =>
      ⟨os_path_basename file_path, contents⟩ :: localZipEntries media_root fs rest
    | none => localZipEntries media_root fs rest

/-- Model of `create_zip_archive(file_paths)` (views.py lines 306-336):
the local-storage archive builder, returning the buffer rewound to 0. -/
def create_zip_archive (media_root : String) (fs : String → Option (List Nat))
    (file_paths : List String) : ZipBuffer :=
  ⟨localZipEntries media_root fs file_paths, 0⟩

/-- The parts of the inbound request read by `download_multiple_files`:
the HTTP method and `request.POST.getlist('files')`. -/
structure HttpRequest where
  method : String
  files : List String
deriving DecidableEq

/-- Outcome of the `download_multiple_files` view: the HTTP status of the
response and the number of network requests issued while handling it. -/
structure ViewResponse where
  status : Nat
  network_requests : Nat
deriving DecidableEq

/-- Model of `download_multiple_files(request, public_key)` (views.py
lines 266-303): non-POST methods get a 405 with no network activity; a
POST with an empty file selection gets a 400 with no network activity;
otherwise the ZIP is built (issuing its network requests) and returned
with status 200. -/
def download_multiple_files (resolveLink : String → String → String)
    (fetch : String → FetchResponse) (request : HttpRequest)
    (public_key : String) : ViewResponse :=
  if request.method = "POST" then
    if request.files = [] then ⟨400, 0⟩
    else
      ⟨200, (create_zip_archive_from_yandex resolveLink fetch
        public_key request.files).2⟩
  else ⟨405, 0⟩

/-- Test fixture: 125 distinct items. -/
def items125 : List Item :=
  (List.range 125).map (fun j => ⟨"f", some "image", j⟩)

/-- Test fixture: an API serving exactly the 125 items of `items125` in
pages of at most 50 (an offset past the end yields an empty page). -/
def api125 : Nat → ListingResponse :=
  fun offset => ⟨200, (items125.drop offset).take 50⟩

/-- Test fixture item with media type "image". -/
def itemA : Item := ⟨"a.jpg", some "image", 1⟩

/-- Test fixture item with media type "image". -/
def itemB : Item := ⟨"b.jpg", some "image", 2⟩

/-- Test fixture item with media type "document". -/
def itemDoc : Item := ⟨"c.txt", some "document", 3⟩

/-- Test fixture: page 1 serves two items, page 2 (offset 50) fails with
status 500, page 3 (offset 100) would serve one more item. -/
def api3 : Nat → ListingResponse :=
  fun offset =>
    if offset = 0 then ⟨200, [itemA, itemB]⟩
    else if offset = 50 then ⟨500, []⟩
    else ⟨200, [itemDoc]⟩

/-- Test fixture: a single page with one image item and one document item,
followed by an empty page. -/
def apiMixed : Nat → ListingResponse :=
  fun offset => if offset = 0 then ⟨200, [itemA, itemDoc]⟩ else ⟨200, []⟩

/-- Test fixture: an API whose first page is already empty. -/
def apiEmpty : Nat → ListingResponse := fun _ => ⟨200, []⟩

/-- Test fixture: link resolution that fails (empty link) exactly for
"f2". -/
def resolve3 : String → String → String :=
  fun _ file_path =>
    if file_path = "f2" then "" else "https://dl/" ++ file_path

/-- Test fixture: remote bytes served for the resolved links. -/
def fetch3 : String → FetchResponse :=
  fun url => if url = "https://dl/f1" then ⟨200, [1, 2, 3]⟩ else ⟨200, [4, 5]⟩

/-- Test fixture: a link endpoint that always answers 404. -/
def fetch404 : String → Except String LinkResponse :=
  fun _ => Except.ok ⟨404, none⟩

/-- Test fixture: local storage holding a single file `/media/a.txt`. -/
def fsA : String → Option (List Nat) :=
  fun p => if p = "/media/a.txt" then some [7, 7] else none

theorem reqTrace_eq_map (offset k : Nat) :
    reqTrace offset k = (List.range k).map (fun i => ⟨50, offset + 50 * i⟩) := by
  induction k generalizing offset with
  | zero => rfl
  | succ k ih =>
    rw [List.range_succ_eq_map]
    simp only [List.map_cons, List.map_map]
    rw [reqTrace, ih]
    have hf : ((fun i => (⟨50, offset + 50 * i⟩ : PageRequest)) ∘ Nat.succ) =
        fun i => (⟨50, offset + 50 + 50 * i⟩ : PageRequest) := by
      funext i
      simp only [Function.comp_apply]
      congr 1
      omega
    rw [hf]
    congr 1

/-- Main run lemma for the pagination loop: if the `k` pages at offsets
`offset, offset+50, ...` all answer 200 with non-empty items and the page
at `offset + 50*k` stops the loop (non-200 status or empty items), then
the loop returns exactly the filtered items of the first `k` pages and
issues exactly `k+1` page requests at those offsets. -/
theorem paginate_run (api : Nat → ListingResponse) (media_type : Option String)
    (k : Nat) :
    ∀ (fuel offset : Nat) (files : List Item) (reqs : List PageRequest),
      k < fuel →
      (∀ i, i < k → (api (offset + 50 * i)).status_code = 200 ∧
        (api (offset + 50 * i)).embedded_items ≠ []) →
      ((api (offset + 50 * k)).status_code ≠ 200 ∨
        (api (offset + 50 * k)).embedded_items = []) →
      paginate api media_type fuel offset files reqs =
        (files ++ collectItems api media_type offset k,
          reqs ++ reqTrace offset (k + 1)) := by
  induction k with
  | zero =>
    intro fuel offset files reqs hfuel _hgood hstop
    obtain ⟨f, rfl⟩ : ∃ f, fuel = f + 1 := ⟨fuel - 1, by omega⟩
    simp only [Nat.mul_zero, Nat.add_zero] at hstop
    rcases hstop with h | h
    · simp [paginate, if_neg h, collectItems, reqTrace]
    · by_cases h200 : (api offset).status_code = 200
      · simp [paginate, h200, h, collectItems, reqTrace]
      · simp [paginate, if_neg h200, collectItems, reqTrace]
  | succ k ih =>
    intro fuel offset files reqs hfuel hgood hstop
    obtain ⟨f, rfl⟩ : ∃ f, fuel = f + 1 := ⟨fuel - 1, by omega⟩
    have h0 := hgood 0 (by omega)
    rw [Nat.mul_zero, Nat.add_zero] at h0
    obtain ⟨h200, hne⟩ := h0
    have hgood2 : ∀ i, i < k → (api (offset + 50 + 50 * i)).status_code = 200 ∧
        (api (offset + 50 + 50 * i)).embedded_items ≠ [] := by
      intro i hi
      have h := hgood (i + 1) (by omega)
      rw [show offset + 50 * (i + 1) = offset + 50 + 50 * i from by ring] at h
      exact h
    have hstop2 : (api (offset + 50 + 50 * k)).status_code ≠ 200 ∨
        (api (offset + 50 + 50 * k)).embedded_items = [] := by
      rw [show offset + 50 + 50 * k = offset + 50 * (k + 1) from by ring]
      exact hstop
    have hrec := ih f (offset + 50)
      (files ++ (api offset).embedded_items.filter (keepItem media_type))
      (reqs ++ [⟨50, offset⟩]) (by omega) hgood2 hstop2
    simp only [paginate, if_pos h200, if_neg hne]
    rw [hrec]
    simp [collectItems, reqTrace, List.append_assoc]

theorem keepItem_eq_true_iff (media_type : Option String) (item : Item) :
    keepItem media_type item = true ↔
      (media_type_truthy media_type = false ∨ item.media_type = media_type) := by
  unfold keepItem
  cases h : media_type_truthy media_type with
  | false => simp [h]
  | true => simp [h, bne_iff_ne]

theorem mem_collectItems (api : Nat → ListingResponse) (media_type : Option String) :
    ∀ (k offset : Nat) (item : Item),
      item ∈ collectItems api media_type offset k → keepItem media_type item = true := by
  intro k
  induction k with
  | zero => intro offset item h; simp [collectItems] at h
  | succ k ih =>
    intro offset item h
    rw [collectItems] at h
    rcases List.mem_append.mp h with h1 | h2
    · exact (List.mem_filter.mp h1).2
    · exact ih (offset + 50) item h2

theorem collectItems_falsy (api : Nat → ListingResponse) (media_type : Option String)
    (hmt : media_type_truthy media_type = false) :
    ∀ (k offset : Nat),
      collectItems api media_type offset k = allPageItems api offset k := by
  intro k
  induction k with
  | zero => intro offset; rfl
  | succ k ih =>
    intro offset
    rw [collectItems, allPageItems, ih]
    congr 1
    exact List.filter_eq_self.mpr (fun a _ => by simp [keepItem, hmt])

theorem get_files_run (c : Cache) (now : Nat) (api : Nat → ListingResponse)
    (fuel : Nat) (public_key : String) (media_type : Option String) (k : Nat)
    (hmiss : cache_get c now (listing_cache_key public_key media_type) = none)
    (hfuel : k < fuel)
    (hgood : ∀ i, i < k → (api (50 * i)).status_code = 200 ∧
      (api (50 * i)).embedded_items ≠ [])
    (hstop : (api (50 * k)).status_code ≠ 200 ∨
      (api (50 * k)).embedded_items = []) :
    (get_files_from_public_link c now api fuel public_key media_type).files =
      collectItems api media_type 0 k ∧
    (get_files_from_public_link c now api fuel public_key media_type).requests =
      reqTrace 0 (k + 1) := by
  have hgood0 : ∀ i, i < k → (api (0 + 50 * i)).status_code = 200 ∧
      (api (0 + 50 * i)).embedded_items ≠ [] := by
    intro i hi
    rw [Nat.zero_add]
    exact hgood i hi
  have hstop0 : (api (0 + 50 * k)).status_code ≠ 200 ∨
      (api (0 + 50 * k)).embedded_items = [] := by
    rw [Nat.zero_add]
    exact hstop
  have h := paginate_run api media_type k fuel 0 [] [] hfuel hgood0 hstop0
  simp [get_files_from_public_link, hmiss, h]

theorem yandexZipEntries_entries (resolveLink : String → String → String)
    (fetch : String → FetchResponse) (public_key : String) :
    ∀ file_paths : List String,
      (yandexZipEntries resolveLink fetch public_key file_paths).1 =
        file_paths.filterMap (fun file_path =>
          if resolveLink public_key file_path ≠ "" ∧
              (fetch (resolveLink public_key file_path)).status_code = 200 then
            some ⟨file_path, (fetch (resolveLink public_key file_path)).body⟩
          else none) := by
  intro file_paths
  induction file_paths with
  | nil => rfl
  | cons p rest ih =>
    by_cases hu : resolveLink public_key p = ""
    · simp [yandexZipEntries, hu, List.filterMap_cons, ih]
    · by_cases hs : (fetch (resolveLink public_key p)).status_code = 200
      · simp [yandexZipEntries, hu, hs, List.filterMap_cons, ih]
      · simp [yandexZipEntries, hu, hs, List.filterMap_cons, ih]

theorem localZipEntries_entries (media_root : String)
    (fs : String → Option (List Nat)) :
    ∀ file_paths : List String,
      localZipEntries media_root fs file_paths =
        file_paths.filterMap (fun file_path =>
          (fs (os_path_join media_root (lstripSlashes file_path))).map
            (fun contents => ⟨os_path_basename file_path, contents⟩)) := by
  intro file_paths
  induction file_paths with
  | nil => rfl
  | cons p rest ih =>
    cases hf : fs (os_path_join media_root (lstripSlashes p)) with
    | none => simp [localZipEntries, hf, List.filterMap_cons, ih]
    | some contents => simp [localZipEntries, hf, List.filterMap_cons, ih]

/-- C1: for every `public_key` and `file_path` the blocking resolver's
request URL equals the non-blocking resolver's URL taken at the mutated
inputs — `public_key` with `"//"` and the first 31 characters of
`file_path` appended, and the percent-encoded remainder of `file_path` —
while the non-blocking resolver sends its inputs unmodified and
unencoded, so on some inputs the two variants issue different request
URLs. -/
theorem C1_resolver_divergence :
    (∀ public_key file_path : String,
        get_download_link_url public_key file_path =
          get_download_link_async_url (public_key ++ "//" ++ file_path.take 31)
            (quote_plus (file_path.drop 31))) ∧
    (∃ public_key file_path : String,
        get_download_link_url public_key file_path ≠
          get_download_link_async_url public_key file_path) :=
  ⟨fun _ _ => rfl, ⟨"k", "a", by decide⟩⟩

/-- C5: the remote ZIP builder returns the buffer positioned at the
start, and its entries are exactly the input paths, in input order, whose
link resolved to a non-empty URL and whose fetch answered 200, each named
exactly the file path and carrying the fetched bytes; in particular for
three requested files of which one fails to resolve, the archive holds
exactly the two successfully fetched entries, byte for byte. -/
theorem C5_zip_from_yandex (resolveLink : String → String → String)
    (fetch : String → FetchResponse) (public_key : String)
    (file_paths : List String) :
    (create_zip_archive_from_yandex resolveLink fetch public_key file_paths).1.pos = 0 ∧
    (create_zip_archive_from_yandex resolveLink fetch public_key file_paths).1.entries =
      file_paths.filterMap (fun file_path =>
        if resolveLink public_key file_path ≠ "" ∧
            (fetch (resolveLink public_key file_path)).status_code = 200 then
          some ⟨file_path, (fetch (resolveLink public_key file_path)).body⟩
        else none) ∧
    (create_zip_archive_from_yandex resolve3 fetch3 "k" ["f1", "f2", "f3"]).1.entries =
      [⟨"f1", [1, 2, 3]⟩, ⟨"f3", [4, 5]⟩] :=
  ⟨rfl, yandexZipEntries_entries resolveLink fetch public_key file_paths, by decide⟩

/-- C8: the local ZIP builder joins each path to the media root after
stripping leading separators, includes it under its base name exactly
when it exists on local storage, silently skipping the rest; in
particular for `["a.txt", "missing.txt"]` with only `a.txt` present the
archive holds exactly the entry `a.txt`. -/
theorem C8_local_zip (media_root : String) (fs : String → Option (List Nat))
    (file_paths : List String) :
    (create_zip_archive media_root fs file_paths).entries =
      file_paths.filterMap (fun file_path =>
        (fs (os_path_join media_root (lstripSlashes file_path))).map
          (fun contents => ⟨os_path_basename file_path, contents⟩)) ∧
    (create_zip_archive media_root fs file_paths).pos = 0 ∧
    (create_zip_archive "/media" fsA ["a.txt", "missing.txt"]).entries =
      [⟨"a.txt", [7, 7]⟩] :=
  ⟨localZipEntries_entries media_root fs file_paths, rfl, by decide⟩

/-- C9: the multi-file download endpoint answers a POST with an empty
file selection with status 400 and no network requests, and any non-POST
method with status 405 and no network requests. -/
theorem C9_multi_download_rejects (resolveLink : String → String → String)
    (fetch : String → FetchResponse) (request : HttpRequest)
    (public_key : String) :
    (request.method = "POST" → request.files = [] →
      download_multiple_files resolveLink fetch request public_key = ⟨400, 0⟩) ∧
    (request.method ≠ "POST" →
      download_multiple_files resolveLink fetch request public_key = ⟨405, 0⟩) := by
  constructor
  · intro hm hf
    simp [download_multiple_files, hm, hf]
  · intro hm
    simp [download_multiple_files, hm]

theorem C9_multi_download_rejects_witness :
    download_multiple_files resolve3 fetch3 ⟨"POST", []⟩ "k" = ⟨400, 0⟩ ∧
    download_multiple_files resolve3 fetch3 ⟨"GET", ["f1"]⟩ "k" = ⟨405, 0⟩ :=
  ⟨(C9_multi_download_rejects resolve3 fetch3 ⟨"POST", []⟩ "k").1 rfl rfl,
   (C9_multi_download_rejects resolve3 fetch3 ⟨"GET", ["f1"]⟩ "k").2 (by decide)⟩

/-- C6: both download-link resolvers return the `href` of a 200 response
(defaulting a missing field to the empty string), return the empty string
on any non-200 status instead of raising, and produce an error exactly
when the underlying transport does. -/
theorem C6_link_error_handling (fetch : String → Except String LinkResponse)
    (public_key : String) (file_path : String) :
    (∀ r : LinkResponse,
      fetch (get_download_link_url public_key file_path) = Except.ok r →
        (r.status_code = 200 →
          get_download_link fetch public_key file_path =
            Except.ok (r.href.getD "")) ∧
        (r.status_code ≠ 200 →
          get_download_link fetch public_key file_path = Except.ok "")) ∧
    (∀ e : String,
      get_download_link fetch public_key file_path = Except.error e ↔
        fetch (get_download_link_url public_key file_path) = Except.error e) ∧
    (∀ r : LinkResponse,
      fetch (get_download_link_async_url public_key file_path) = Except.ok r →
        (r.status_code = 200 →
          get_download_link_async fetch public_key file_path =
            Except.ok (r.href.getD "")) ∧
        (r.status_code ≠ 200 →
          get_download_link_async fetch public_key file_path = Except.ok "")) ∧
    (∀ e : String,
      get_download_link_async fetch public_key file_path = Except.error e ↔
        fetch (get_download_link_async_url public_key file_path) = Except.error e) := by
  refine ⟨?_, ?_, ?_, ?_⟩
  · intro r hr
    exact ⟨fun h200 => by simp [get_download_link, hr, h200],
      fun h200 => by simp [get_download_link, hr, h200]⟩
  · intro e
    cases hf : fetch (get_download_link_url public_key file_path) with
    | error e2 => simp [get_download_link, hf]
    | ok r =>
      by_cases h : r.status_code = 200 <;> simp [get_download_link, hf, h]
  · intro r hr
    exact ⟨fun h200 => by simp [get_download_link_async, hr, h200],
      fun h200 => by simp [get_download_link_async, hr, h200]⟩
  · intro e
    cases hf : fetch (get_download_link_async_url public_key file_path) with
    | error e2 => simp [get_download_link_async, hf]
    | ok r =>
      by_cases h : r.status_code = 200 <;> simp [get_download_link_async, hf, h]

theorem C6_link_error_handling_witness :
    get_download_link fetch404 "k" "p" = Except.ok "" ∧
    get_download_link_async fetch404 "k" "p" = Except.ok "" :=
  ⟨((C6_link_error_handling fetch404 "k" "p").1 ⟨404, none⟩ rfl).2 (by decide),
   ((C6_link_error_handling fetch404 "k" "p").2.2.1 ⟨404, none⟩ rfl).2 (by decide)⟩

/-- C2 counterexample: against an API serving exactly 125 items in pages
of 50, `get_files_from_public_link` does return the 125 items in order,
but it issues 4 page requests, not 3: a final request at offset 150 is
needed to observe the empty page that stops the loop. -/
theorem C2_pagination_counterexample :
    (get_files_from_public_link emptyCache 0 api125 10 "k" none).files = items125 ∧
    (get_files_from_public_link emptyCache 0 api125 10 "k" none).requests.length = 4 ∧
    (get_files_from_public_link emptyCache 0 api125 10 "k" none).requests.length ≠ 3 :=
  ⟨by decide, by decide, by decide⟩

/-- C2 (amended): on a cache miss the function requests pages of fixed
size 50 at offsets increasing by 50 and stops at the first page with zero
items; against an API serving exactly 125 items across pages of 50 it
returns exactly 125 items in stable order and issues exactly 4 page
requests (the fourth observes the empty page that ends pagination). -/
theorem C2_pagination_amended :
    (∀ (c : Cache) (now : Nat) (api : Nat → ListingResponse) (fuel : Nat)
        (public_key : String) (media_type : Option String) (k : Nat),
        cache_get c now (listing_cache_key public_key media_type) = none →
        k < fuel →
        (∀ i, i < k → (api (50 * i)).status_code = 200 ∧
          (api (50 * i)).embedded_items ≠ []) →
        (api (50 * k)).status_code = 200 →
        (api (50 * k)).embedded_items = [] →
        (get_files_from_public_link c now api fuel public_key media_type).files =
          collectItems api media_type 0 k ∧
        (get_files_from_public_link c now api fuel public_key media_type).requests =
          (List.range (k + 1)).map (fun i => ⟨50, 50 * i⟩)) ∧
    ((get_files_from_public_link emptyCache 0 api125 10 "k" none).files = items125 ∧
      items125.length = 125 ∧
      (get_files_from_public_link emptyCache 0 api125 10 "k" none).requests =
        [⟨50, 0⟩, ⟨50, 50⟩, ⟨50, 100⟩, ⟨50, 150⟩]) := by
  constructor
  · intro c now api fuel public_key media_type k hmiss hfuel hgood h200 hempty
    have h := get_files_run c now api fuel public_key media_type k hmiss hfuel
      hgood (Or.inr hempty)
    refine ⟨h.1, ?_⟩
    rw [h.2, reqTrace_eq_map]
    simp [Nat.zero_add]
  · exact ⟨by decide, by decide, by decide⟩

theorem C2_pagination_amended_witness :
    (get_files_from_public_link emptyCache 0 api125 10 "k" none).files =
      collectItems api125 none 0 3 ∧
    (get_files_from_public_link emptyCache 0 api125 10 "k" none).requests =
      (List.range 4).map (fun i => ⟨50, 50 * i⟩) :=
  C2_pagination_amended.1 emptyCache 0 api125 10 "k" none 3 rfl (by omega)
    (by intro i hi
        interval_cases i <;> exact ⟨rfl, by decide⟩)
    rfl (by decide)

/-- C3: if the pages before index `k` answer 200 with items and the page
at offset `50*k` answers a non-success status, the function stops there,
returning the items accumulated from the earlier pages (no exception is
raised: the function is total) and issuing exactly the `k+1` page
requests at offsets `0, 50, ..., 50*k` — none beyond the failing page. -/
theorem C3_error_partial_results (c : Cache) (now : Nat)
    (api : Nat → ListingResponse) (fuel : Nat) (public_key : String)
    (media_type : Option String) (k : Nat)
    (hmiss : cache_get c now (listing_cache_key public_key media_type) = none)
    (hfuel : k < fuel)
    (hgood : ∀ i, i < k → (api (50 * i)).status_code = 200 ∧
      (api (50 * i)).embedded_items ≠ [])
    (hfail : (api (50 * k)).status_code ≠ 200) :
    (get_files_from_public_link c now api fuel public_key media_type).files =
      collectItems api media_type 0 k ∧
    (get_files_from_public_link c now api fuel public_key media_type).requests =
      reqTrace 0 (k + 1) :=
  get_files_run c now api fuel public_key media_type k hmiss hfuel hgood
    (Or.inl hfail)

theorem C3_error_partial_results_witness :
    (get_files_from_public_link emptyCache 0 api3 5 "k" none).files =
      [itemA, itemB] ∧
    (get_files_from_public_link emptyCache 0 api3 5 "k" none).requests =
      [⟨50, 0⟩, ⟨50, 50⟩] := by
  have h := C3_error_partial_results emptyCache 0 api3 5 "k" none 1 rfl (by omega)
    (by intro i hi
        obtain rfl : i = 0 := by omega
        exact ⟨by decide, by decide⟩)
    (by decide)
  exact ⟨h.1.trans (by decide), h.2.trans (by decide)⟩

/-- C4: the cache is consulted first — a hit returns the cached list
unchanged, with no page requests and the cache untouched; a miss stores
the accumulated list under the key of the (public_key, media_type) pair
with expiry one hour (3600) after the call, so a second call with the
same pair before that expiry issues no page requests and returns the
same list, whatever API the network would serve then. -/
theorem C4_cache_policy :
    (∀ (c : Cache) (now : Nat) (api : Nat → ListingResponse) (fuel : Nat)
        (public_key : String) (media_type : Option String) (v : List Item),
        cache_get c now (listing_cache_key public_key media_type) = some v →
        get_files_from_public_link c now api fuel public_key media_type =
          ⟨v, [], c⟩) ∧
    (∀ (c : Cache) (now now2 : Nat) (api api2 : Nat → ListingResponse)
        (fuel fuel2 : Nat) (public_key : String) (media_type : Option String),
        cache_get c now (listing_cache_key public_key media_type) = none →
        now2 < now + 3600 →
        (get_files_from_public_link c now api fuel public_key media_type).cache
            (listing_cache_key public_key media_type) =
          some ⟨(get_files_from_public_link c now api fuel public_key media_type).files,
            now + 3600⟩ ∧
        get_files_from_public_link
            (get_files_from_public_link c now api fuel public_key media_type).cache
            now2 api2 fuel2 public_key media_type =
          ⟨(get_files_from_public_link c now api fuel public_key media_type).files, [],
            (get_files_from_public_link c now api fuel public_key media_type).cache⟩) := by
  constructor
  · intro c now api fuel public_key media_type v h
    simp [get_files_from_public_link, h]
  · intro c now now2 api api2 fuel fuel2 public_key media_type hmiss hnow
    have hcache : (get_files_from_public_link c now api fuel public_key media_type).cache =
        cache_set c now (listing_cache_key public_key media_type)
          (paginate api media_type fuel 0 [] []).1 3600 := by
      simp [get_files_from_public_link, hmiss]
    have hfiles : (get_files_from_public_link c now api fuel public_key media_type).files =
        (paginate api media_type fuel 0 [] []).1 := by
      simp [get_files_from_public_link, hmiss]
    have hstore : (get_files_from_public_link c now api fuel public_key media_type).cache
        (listing_cache_key public_key media_type) =
        some ⟨(get_files_from_public_link c now api fuel public_key media_type).files,
          now + 3600⟩ := by
      rw [hcache, hfiles]
      simp [cache_set]
    refine ⟨hstore, ?_⟩
    have hget : cache_get
        (get_files_from_public_link c now api fuel public_key media_type).cache
        now2 (listing_cache_key public_key media_type) =
        some (get_files_from_public_link c now api fuel public_key media_type).files := by
      rw [cache_get, hstore]
      simp [hnow]
    have hhit : ∀ (c2 : Cache) (v : List Item),
        cache_get c2 now2 (listing_cache_key public_key media_type) = some v →
        get_files_from_public_link c2 now2 api2 fuel2 public_key media_type =
          ⟨v, [], c2⟩ := by
      intro c2 v h
      simp [get_files_from_public_link, h]
    exact hhit _ _ hget

theorem C4_cache_policy_witness :
    (get_files_from_public_link emptyCache 0 apiEmpty 5 "k" none).cache
        (listing_cache_key "k" none) =
      some ⟨(get_files_from_public_link emptyCache 0 apiEmpty 5 "k" none).files, 3600⟩ ∧
    get_files_from_public_link
        (get_files_from_public_link emptyCache 0 apiEmpty 5 "k" none).cache
        10 apiEmpty 5 "k" none =
      ⟨(get_files_from_public_link emptyCache 0 apiEmpty 5 "k" none).files, [],
        (get_files_from_public_link emptyCache 0 apiEmpty 5 "k" none).cache⟩ := by
  have h := C4_cache_policy.2 emptyCache 0 10 apiEmpty apiEmpty 5 5 "k" none rfl
    (by omega)
  simpa using h

/-- C7: every item returned by a cache-miss run either was fetched under
a falsy (unset) filter or has a media_type equal to the filter; and with
no filter at all the result is exactly the union, in order, of all pages'
items. -/
theorem C7_media_type_filter :
    (∀ (c : Cache) (now : Nat) (api : Nat → ListingResponse) (fuel : Nat)
        (public_key : String) (media_type : Option String) (k : Nat),
        cache_get c now (listing_cache_key public_key media_type) = none →
        k < fuel →
        (∀ i, i < k → (api (50 * i)).status_code = 200 ∧
          (api (50 * i)).embedded_items ≠ []) →
        ((api (50 * k)).status_code ≠ 200 ∨ (api (50 * k)).embedded_items = []) →
        ∀ item ∈ (get_files_from_public_link c now api fuel public_key media_type).files,
          media_type_truthy media_type = false ∨ item.media_type = media_type) ∧
    (∀ (c : Cache) (now : Nat) (api : Nat → ListingResponse) (fuel : Nat)
        (public_key : String) (k : Nat),
        cache_get c now (listing_cache_key public_key none) = none →
        k < fuel →
        (∀ i, i < k → (api (50 * i)).status_code = 200 ∧
          (api (50 * i)).embedded_items ≠ []) →
        ((api (50 * k)).status_code ≠ 200 ∨ (api (50 * k)).embedded_items = []) →
        (get_files_from_public_link c now api fuel public_key none).files =
          allPageItems api 0 k) := by
  constructor
  · intro c now api fuel public_key media_type k hmiss hfuel hgood hstop item hmem
    have h := (get_files_run c now api fuel public_key media_type k hmiss hfuel
      hgood hstop).1
    rw [h] at hmem
    exact (keepItem_eq_true_iff media_type item).mp
      (mem_collectItems api media_type k 0 item hmem)
  · intro c now api fuel public_key k hmiss hfuel hgood hstop
    have h := (get_files_run c now api fuel public_key none k hmiss hfuel
      hgood hstop).1
    rw [h]
    exact collectItems_falsy api none rfl k 0

theorem C7_media_type_filter_witness :
    media_type_truthy (some "image") = false ∨ itemA.media_type = some "image" :=
  C7_media_type_filter.1 emptyCache 0 apiMixed 5 "k" (some "image") 1 rfl
    (by omega)
    (by intro i hi
        obtain rfl : i = 0 := by omega
        exact ⟨by decide, by decide⟩)
    (Or.inr (by decide)) itemA (by decide)

/-- C10: calling the function with the empty string as media_type filter
behaves as if no filter were given, because the Python truthiness test
treats the empty string like None: on a cache-miss run every item of
every fetched page is included, exactly as with filter None. -/
theorem C10_empty_string_filter (c : Cache) (now : Nat)
    (api : Nat → ListingResponse) (fuel : Nat) (public_key : String) (k : Nat)
    (hmiss : cache_get c now (listing_cache_key public_key (some "")) = none)
    (hfuel : k < fuel)
    (hgood : ∀ i, i < k → (api (50 * i)).status_code = 200 ∧
      (api (50 * i)).embedded_items ≠ [])
    (hstop : (api (50 * k)).status_code ≠ 200 ∨
      (api (50 * k)).embedded_items = []) :
    (get_files_from_public_link c now api fuel public_key (some "")).files =
      allPageItems api 0 k ∧
    (get_files_from_public_link c now api fuel public_key (some "")).files =
      collectItems api none 0 k := by
  have h := (get_files_run c now api fuel public_key (some "") k hmiss hfuel
    hgood hstop).1
  have hall : (get_files_from_public_link c now api fuel public_key (some "")).files =
      allPageItems api 0 k := by
    rw [h]
    exact collectItems_falsy api (some "") (by decide) k 0
  exact ⟨hall, hall.trans (collectItems_falsy api none rfl k 0).symm⟩

theorem C10_empty_string_filter_witness :
    (get_files_from_public_link emptyCache 0 apiMixed 5 "k" (some "")).files =
      allPageItems apiMixed 0 1 ∧
    (get_files_from_public_link emptyCache 0 apiMixed 5 "k" (some "")).files =
      collectItems apiMixed none 0 1 :=
  C10_empty_string_filter emptyCache 0 apiMixed 5 "k" 1 rfl (by omega)
    (by intro i hi
        obtain rfl : i = 0 := by omega
        exact ⟨by decide, by decide⟩)
    (Or.inr (by decide))
